import Mathlib

/-
Verification of the InterviewAgent repository's orchestration core:
a shallow embedding of the interview state machine (llm_groq.py), the
silence-terminated recorder (audio_utils.py), the session registry and
request handlers (main.py), the TTS voice table (tts_deepgram.py) and the
interactive turn loop (interview_agent.py), with theorems about the
behaviours the specification describes.

External effects (the Groq generation network call, the Deepgram synthesis
call, the microphone stream, the transcription call) are modelled as
oracle arguments: the pure state transitions around them are translated
from the source.
-/

namespace Interview

/-- Whether the character list `pat` is an initial segment of `s`. -/
def charsStartWith : List Char → List Char → Bool
  | _, [] => true
  | [], _ :: _ => false
  | c :: cs, p :: ps => c == p && charsStartWith cs ps

/-- Whether the character list `pat` occurs contiguously inside `s`. -/
def charsContain (pat : List Char) : List Char → Bool
  | [] => pat.isEmpty
  | c :: cs => charsStartWith (c :: cs) pat || charsContain pat cs

/-- Python's substring test `pat in s` for strings (true when `pat` is empty
or occurs contiguously in `s`), written over the character lists so that
proofs can evaluate it. -/
def strContains (s pat : String) : Bool :=
  charsContain pat.data s.data

/-- Python's `str.lower` (`String.toLower`), written over the character list
so that proofs can evaluate it. -/
def strLower (s : String) : String :=
  String.mk (s.data.map Char.toLower)

/-- One entry of an LLM `conversation_history`: a role-tagged message, as the
dicts `{"role": ..., "content": ...}` in llm_groq.py. -/
structure Msg where
  role : String
  content : String
deriving Repr, DecidableEq

/-- The mutable state of `GroqLLM` (llm_groq.py lines 35-46): the external
`client` and `model` handles carry no orchestration state and are omitted. -/
structure GroqLLM where
  conversation_history : List Msg
  question_count : Nat
  main_questions_asked : Nat
  max_questions : Nat
  interview_satisfied : Bool
  satisfaction_level : String
deriving Repr, DecidableEq

/-- The state of a freshly constructed `GroqLLM()` (config.MAX_QUESTIONS
defaults to 5). -/
def GroqLLM.init : GroqLLM :=
  { conversation_history := []
    question_count := 0
    main_questions_asked := 0
    max_questions := 5
    interview_satisfied := false
    satisfaction_level := "gathering_info" }

/-- `GroqLLM.reset` (llm_groq.py lines 48-54). -/
def GroqLLM.reset (st : GroqLLM) : GroqLLM :=
  { st with
    conversation_history := []
    question_count := 0
    main_questions_asked := 0
    interview_satisfied := false
    satisfaction_level := "gathering_info" }

/-- The system framing prompt `INTERVIEW_SYSTEM_PROMPT` (llm_groq.py lines
10-29); its exact text never influences the state transitions. -/
def INTERVIEW_SYSTEM_PROMPT : String :=
  "You are an expert technical interviewer conducting a professional job interview via voice."

/-- The message list `_generate_response` sends to the generation engine
(llm_groq.py lines 151-155): system prompt, then the whole history, then the
optional extra instruction.  The instruction is never stored in
`conversation_history`. -/
def buildMessages (st : GroqLLM) (instruction : Option String) : List Msg :=
  ⟨"system", INTERVIEW_SYSTEM_PROMPT⟩ :: st.conversation_history ++
    (match instruction with
     | some i => [⟨"user", i⟩]
     | none => [])

/-- `_generate_response` (llm_groq.py lines 149-171) with the network reply
abstracted as the oracle `assistant_message`: it sends `buildMessages st
instruction`, appends only the assistant reply to `conversation_history`,
and returns that reply. -/
def generate_response (st : GroqLLM) (assistant_message : String) :
    GroqLLM × String :=
  ({ st with conversation_history :=
      st.conversation_history ++ [⟨"assistant", assistant_message⟩] },
   assistant_message)

/-- The opening prompt built in `start_interview` (llm_groq.py lines 72-73). -/
def opening_prompt (candidate_name role : String) : String :=
  "Start the interview. The candidate's name is " ++ candidate_name ++
    " and they're interviewing for " ++ role ++
    ". \nGive a warm, brief greeting and ask your first question about their background."

/-- `GroqLLM.start_interview` (llm_groq.py lines 56-78): reset, generate the
opening (the reply is the oracle `generated`), set `main_questions_asked`
to 1, return the stripped reply. -/
def GroqLLM.start_interview (st : GroqLLM) (candidate_name role : String)
    (generated : String) : GroqLLM × String :=
  let st0 := st.reset
  let _sent := buildMessages st0 (some (opening_prompt candidate_name role))
  let (st1, response) := generate_response st0 generated
  ({ st1 with main_questions_asked := 1 }, response.trim)

/-- The state-conditioned instruction chosen in `respond` (llm_groq.py lines
95-106), selected by `main_questions_asked` before generation; it is sent via
`buildMessages` and never stored. -/
def state_context (main_questions_asked : Nat) : String :=
  if 4 ≤ main_questions_asked then
    "The conversation is going well. You can start wrapping up soon."
  else if 2 ≤ main_questions_asked then
    "Continue the interview naturally."
  else
    "Continue the interview. Acknowledge their response and ask your next question."

/-- `new_topic_indicators` (llm_groq.py lines 112-121). -/
def new_topic_indicators : List String :=
  [ "tell me about"
  , "can you describe"
  , "what experience"
  , "how would you"
  , "walk me through"
  , "what's your approach"
  , "have you ever"
  , "what do you think" ]

/-- `ending_phrases` (llm_groq.py lines 132-140). -/
def ending_phrases : List String :=
  [ "thank you for your time"
  , "thank you for speaking"
  , "best of luck"
  , "pleasure speaking"
  , "great talking"
  , "enjoyed our conversation"
  , "we'll be in touch" ]

/-- Whether a generated utterance contains one of the valedictory
`ending_phrases` after lowercasing, exactly the test on llm_groq.py line 141. -/
def has_ending_phrase (response : String) : Bool :=
  ending_phrases.any (fun phrase => strContains (strLower response) phrase)

/-- Whether a generated utterance matches a `new_topic_indicators` entry after
lowercasing, the test on llm_groq.py lines 124-126. -/
def is_new_main_question (response : String) : Bool :=
  new_topic_indicators.any (fun ind => strContains (strLower response) ind)

/-- `GroqLLM.respond` (llm_groq.py lines 80-147) with the generation reply
abstracted as the oracle `generated`: append the candidate message, bump
`question_count`, generate (the state-conditioned instruction
`state_context` goes only into the sent messages), then classify the reply
for topic escalation and closure. -/
def GroqLLM.respond (st : GroqLLM) (user_input : String)
    (generated : String) : GroqLLM × String :=
  let st1 := { st with
    conversation_history := st.conversation_history ++ [⟨"user", user_input⟩]
    question_count := st.question_count + 1 }
  let _sent := buildMessages st1 (some (state_context st1.main_questions_asked))
  let (st2, response) := generate_response st1 generated
  let st3 :=
    if is_new_main_question response && strContains response "?" then
      { st2 with main_questions_asked := st2.main_questions_asked + 1 }
    else st2
  let st4 :=
    if has_ending_phrase response then
      { st3 with interview_satisfied := true, satisfaction_level := "satisfied" }
    else if 3 ≤ st3.main_questions_asked then
      { st3 with satisfaction_level := "almost_satisfied" }
    else st3
  (st4, response.trim)

/-- `is_interview_complete` (llm_groq.py lines 233-236). -/
def GroqLLM.is_interview_complete (st : GroqLLM) : Bool :=
  st.interview_satisfied

/-- `can_prompt_end` (llm_groq.py lines 238-241). -/
def GroqLLM.can_prompt_end (st : GroqLLM) : Bool :=
  3 ≤ st.main_questions_asked

/-- The dict returned by `get_state` (llm_groq.py lines 243-251). -/
structure StateView where
  question_count : Nat
  main_questions_asked : Nat
  satisfaction_level : String
  can_prompt_end : Bool
  is_complete : Bool
deriving Repr, DecidableEq

/-- `GroqLLM.get_state` (llm_groq.py lines 243-251). -/
def GroqLLM.get_state (st : GroqLLM) : StateView :=
  ⟨st.question_count, st.main_questions_asked, st.satisfaction_level,
    st.can_prompt_end, st.is_interview_complete⟩

/-- A sequence of `advance` calls: each pair holds the candidate utterance and
the generation oracle's reply for that turn. -/
def advance_list (st : GroqLLM) : List (String × String) → GroqLLM
  | [] => st
  | (u, g) :: rest => advance_list (st.respond u g).1 rest

/-! ## Silence-terminated recorder (audio_utils.py) -/

/-- The parameters of `AudioRecorder.record_with_silence_detection`
(audio_utils.py lines 44-50).  Durations and the RMS threshold are exact
rationals; the Python floats of the call sites (1.5, 0.01, ...) denote the
same values. -/
structure CaptureParams where
  sample_rate : Nat
  silence_threshold : ℚ
  silence_duration : ℚ
  min_duration : ℚ
deriving Repr, DecidableEq

/-- `required_silence_samples = int(silence_duration * sample_rate / 1024)`
(audio_utils.py line 67); for the nonnegative values involved Python's
truncating `int` is the floor. -/
def CaptureParams.required_silence_samples (p : CaptureParams) : Nat :=
  (⌊p.silence_duration * (p.sample_rate : ℚ) / 1024⌋).toNat

/-- `min_samples = int(min_duration * sample_rate / 1024)`
(audio_utils.py line 68). -/
def CaptureParams.min_samples (p : CaptureParams) : Nat :=
  (⌊p.min_duration * (p.sample_rate : ℚ) / 1024⌋).toNat

/-- The duration of one 1024-frame chunk in seconds. -/
def CaptureParams.chunk_duration (p : CaptureParams) : ℚ :=
  1024 / (p.sample_rate : ℚ)

/-- The recorder-internal counters: `len(audio_chunks)` and
`silence_samples` (audio_utils.py lines 65-66).  The buffered samples
themselves only flow into the output WAV and are not tracked. -/
structure CaptureState where
  chunks : Nat
  silence_samples : Nat
deriving Repr, DecidableEq

/-- One invocation of the stream `callback` (audio_utils.py lines 70-83), a
chunk abstracted by its RMS energy `np.sqrt(np.mean(indata**2))`, the one
attribute the control flow reads.  Returns the updated counters and whether
`sd.CallbackStop` is raised. -/
def capture_callback (p : CaptureParams) (st : CaptureState) (rms : ℚ) :
    CaptureState × Bool :=
  let chunks := st.chunks + 1
  let silence_samples :=
    if rms < p.silence_threshold ∧ p.min_samples < chunks then
      st.silence_samples + 1
    else 0
  (⟨chunks, silence_samples⟩, p.required_silence_samples ≤ silence_samples)

/-- `record_with_silence_detection` run over a stream of chunk RMS values;
the list length is the number of chunks the device delivers before
`max_duration` elapses.  `some n` means `CallbackStop` was raised after
consuming `n` chunks (silence-rule termination); `none` means the stream
ran out (termination by `max_duration`). -/
def record_with_silence_detection (p : CaptureParams) :
    List ℚ → CaptureState → Option Nat
  | [], _ => none
  | rms :: rest, st =>
    let r := capture_callback p st rms
    if r.2 then some r.1.chunks
    else record_with_silence_detection p rest r.1

/-- The parameters of `InterviewAgent.listen` with the recorder's default
sample rate 16000 (config.AUDIO_SAMPLE_RATE) and `silence_duration = 1.5`,
`silence_threshold = 0.01`, `min_duration = 1.0` (the spec's scenario). -/
def capture_params_16k : CaptureParams :=
  { sample_rate := 16000
    silence_threshold := 1 / 100
    silence_duration := 3 / 2
    min_duration := 1 }

/-- A stream that is loud (RMS 1/10) for 32 chunks = 2.048 s and silent
(RMS 0) afterwards, truncated at 80 chunks. -/
def loud_then_silent_stream : List ℚ :=
  List.replicate 32 (1 / 10) ++ List.replicate 48 0

/-- Boundary parameters: one chunk lasts exactly one second
(sample rate 1024) and `min_duration` is exactly one chunk long. -/
def boundary_params : CaptureParams :=
  { sample_rate := 1024
    silence_threshold := 1 / 100
    silence_duration := 3 / 2
    min_duration := 1 }

/-! ## Deepgram TTS voice table (tts_deepgram.py) -/

/-- `AURA_VOICES` (tts_deepgram.py lines 8-21). -/
def AURA_VOICES : List (String × String) :=
  [ ("asteria", "aura-asteria-en")
  , ("luna", "aura-luna-en")
  , ("stella", "aura-stella-en")
  , ("athena", "aura-athena-en")
  , ("hera", "aura-hera-en")
  , ("orion", "aura-orion-en")
  , ("arcas", "aura-arcas-en")
  , ("perseus", "aura-perseus-en")
  , ("angus", "aura-angus-en")
  , ("orpheus", "aura-orpheus-en")
  , ("helios", "aura-helios-en")
  , ("zeus", "aura-zeus-en") ]

/-- `config.DEEPGRAM_TTS_MODEL` (config.py line 23). -/
def config_DEEPGRAM_TTS_MODEL : String := "aura-asteria-en"

/-- The state of a `DeepgramTTS` instance: its selected model; the API key
is an external credential with no bearing on control flow. -/
structure DeepgramTTS where
  model : String
deriving Repr, DecidableEq

/-- `DeepgramTTS.__init__` (tts_deepgram.py lines 29-31):
`AURA_VOICES.get(voice, config.DEEPGRAM_TTS_MODEL)` — an unknown selector
falls back to the configured default model without any error. -/
def DeepgramTTS.construct (voice : String) : DeepgramTTS :=
  ⟨(AURA_VOICES.lookup voice).getD config_DEEPGRAM_TTS_MODEL⟩

/-- `DeepgramTTS.set_voice` (tts_deepgram.py lines 33-40): a known voice
updates the model, an unknown one raises `ValueError`. -/
def DeepgramTTS.set_voice (tts : DeepgramTTS) (voice : String) :
    Except String DeepgramTTS :=
  match AURA_VOICES.lookup voice with
  | some m => .ok { tts with model := m }
  | none => .error ("Unknown voice: " ++ voice)

/-! ## FastAPI server (main.py) -/

/-- One entry of a session transcript, the dicts
`{"role": ..., "content": ...}` stored in `session["transcript"]`. -/
structure TranscriptEntry where
  role : String
  content : String
deriving Repr, DecidableEq

/-- One value of the `sessions` dict (main.py lines 108-114). -/
structure Session where
  llm : GroqLLM
  tts : DeepgramTTS
  candidate_name : String
  role : String
  transcript : List TranscriptEntry
deriving Repr, DecidableEq

/-- The module-level `sessions: dict = {}` (main.py line 38), as an
association list keyed by session id; `lookup` finds the most recent
binding, matching dict assignment. -/
structure ServerState where
  sessions : List (String × Session)
deriving Repr, DecidableEq

/-- A raised `HTTPException(status_code, detail)`. -/
structure HTTPException where
  status_code : Nat
  detail : String
deriving Repr, DecidableEq

/-- The 404 raised for an unknown session id on main.py lines 127-128,
140-141 and 252-253. -/
def session_not_found : HTTPException :=
  ⟨404, "Session not found"⟩

/-- `InterviewStartRequest` (main.py lines 16-19). -/
structure InterviewStartRequest where
  candidate_name : String
  role : String
  voice : String
deriving Repr, DecidableEq

/-- `InterviewStartResponse` (main.py lines 22-26); the synthesized opening
audio is an external byte payload and is omitted. -/
structure InterviewStartResponse where
  session_id : String
  opening_message : String
  state : StateView
deriving Repr, DecidableEq

namespace Api

/-- The `start_interview` handler (main.py lines 89-121): a fresh `GroqLLM`,
a `DeepgramTTS` constructed from the requested voice, the opening utterance
(generation oracle `generated`), and a new `sessions` entry whose transcript
holds the single interviewer opening.  `session_id` stands for the generated
`uuid4`. -/
def start_interview (srv : ServerState) (session_id : String)
    (req : InterviewStartRequest) (generated : String) :
    ServerState × InterviewStartResponse :=
  let llm0 := GroqLLM.init
  let tts := DeepgramTTS.construct req.voice
  let (llm, opening_message) :=
    llm0.start_interview req.candidate_name req.role generated
  let session : Session :=
    ⟨llm, tts, req.candidate_name, req.role,
      [⟨"interviewer", opening_message⟩]⟩
  ({ sessions := (session_id, session) :: srv.sessions },
   ⟨session_id, opening_message, llm.get_state⟩)

/-- The body of the `get_interview_state` handler (main.py lines 124-134). -/
def get_interview_state (srv : ServerState) (session_id : String) :
    Except HTTPException (StateView × List TranscriptEntry) :=
  match srv.sessions.lookup session_id with
  | none => .error session_not_found
  | some s => .ok (s.llm.get_state, s.transcript)

/-- The `end_interview` handler (main.py lines 137-149): on a known id it
returns the transcript and state; the handler performs no deletion, so the
server state it leaves behind is returned unchanged. -/
def end_interview (srv : ServerState) (session_id : String) :
    Except HTTPException (ServerState × (String × List TranscriptEntry × StateView)) :=
  match srv.sessions.lookup session_id with
  | none => .error session_not_found
  | some s => .ok (srv, ("Interview ended", s.transcript, s.llm.get_state))

end Api

/-! ## Interactive agent loop (interview_agent.py) -/

/-- The mutable state of an `InterviewAgent` (interview_agent.py lines
21-32): its LLM, its transcript and the `running` flag; the shared STT, TTS,
recorder and player handles are external. -/
structure AgentState where
  llm : GroqLLM
  transcript : List TranscriptEntry
  running : Bool
deriving Repr, DecidableEq

/-- `InterviewAgent.speak` (interview_agent.py lines 34-41): appends an
interviewer entry to the transcript; the synthesis and playback are
external effects. -/
def speak (st : AgentState) (text : String) : AgentState :=
  { st with transcript := st.transcript ++ [⟨"interviewer", text⟩] }

/-- `InterviewAgent.listen` (interview_agent.py lines 43-64): `audio = none`
models an empty capture (returns "" and appends nothing); `audio = some t`
models a non-empty capture whose transcription is `t` (a candidate entry is
appended even when `t` is empty). -/
def listen (st : AgentState) (audio : Option String) : AgentState × String :=
  match audio with
  | none => (st, "")
  | some t => ({ st with transcript := st.transcript ++ [⟨"candidate", t⟩] }, t)

/-- The exit-command words of interview_agent.py line 99. -/
def exit_words : List String :=
  ["exit", "quit", "stop interview", "end interview"]

/-- The test on interview_agent.py lines 97-100: any exit word occurs as a
substring of the lowercased candidate response. -/
def is_exit_command (response : String) : Bool :=
  exit_words.any (fun w => strContains (strLower response) w)

/-- One iteration of the `run_interview` while-loop (interview_agent.py
lines 88-111): listen, re-prompt on an empty response, force-end on an exit
command, otherwise advance the LLM and speak its reply.  The returned Bool
is whether the loop continues. -/
def interview_loop_body (st : AgentState) (audio : Option String)
    (generated : String) : AgentState × Bool :=
  let r := listen st audio
  let st1 := r.1
  let response := r.2
  if response = "" then
    (speak st1 "I didn't catch that. Could you please repeat?", true)
  else if is_exit_command response then
    (speak st1 "Thank you for your time. The interview is now concluded.", false)
  else
    let r2 := st1.llm.respond response generated
    (speak { st1 with llm := r2.1 } r2.2, true)

/-- The opening of `run_interview` (interview_agent.py lines 79-85): set
`running`, clear the transcript, start the LLM interview and speak the
opening utterance. -/
def run_interview_opening (st : AgentState) (candidate_name role : String)
    (generated : String) : AgentState :=
  let st0 := { st with running := true, transcript := [] }
  let r := st0.llm.start_interview candidate_name role generated
  speak { st0 with llm := r.1 } r.2

/-! ## Concrete runs used by counterexamples and witnesses -/

/-- The state machine after `begin`. -/
def demo_s0 : GroqLLM :=
  (GroqLLM.init.start_interview "Alex" "Backend Engineer" "Hello!").1

/-- After one advance whose generated reply opens a topic. -/
def demo_s1 : GroqLLM :=
  (demo_s0.respond "I worked on a payments system."
    "Tell me about a project you are proud of?").1

/-- After a second topic-opening advance (`main_questions_asked` reaches 3). -/
def demo_s2 : GroqLLM :=
  (demo_s1.respond "Sure." "Can you describe a challenge you faced?").1

/-- After an advance whose generated reply contains a closure phrase. -/
def demo_s3 : GroqLLM :=
  (demo_s2.respond "It was scaling."
    "Thank you for your time, Alex. Best of luck!").1

/-- After one more advance whose generated reply has no closure phrase. -/
def demo_s4 : GroqLLM :=
  (demo_s3.respond "Thanks." "Great. How did the team handle it?").1

/-- A server holding one freshly started session under id "s1". -/
def demo_server : ServerState :=
  (Api.start_interview ⟨[]⟩ "s1" ⟨"Alex", "Backend Engineer", "asteria"⟩
    "Hello Alex! Tell me about your background.").1

/-- A server whose one session was started with an unknown voice selector. -/
def bogus_voice_server : ServerState :=
  (Api.start_interview ⟨[]⟩ "s1" ⟨"Alex", "Software Engineer", "bogus"⟩
    "Hi Alex!").1

/-- An interactive agent right after the opening utterance was spoken. -/
def demo_agent : AgentState :=
  run_interview_opening ⟨GroqLLM.init, [], false⟩ "Alex" "Software Engineer"
    "Hello!"

/-! ## Helper lemmas about the state machine -/

theorem respond_conversation_history (st : GroqLLM) (u g : String) :
    (st.respond u g).1.conversation_history
      = st.conversation_history ++ [⟨"user", u⟩, ⟨"assistant", g⟩] := by
  simp only [GroqLLM.respond, generate_response]
  split <;> split <;> (try split) <;> simp_all

theorem respond_question_count (st : GroqLLM) (u g : String) :
    (st.respond u g).1.question_count = st.question_count + 1 := by
  simp only [GroqLLM.respond, generate_response]
  split <;> split <;> (try split) <;> simp_all

theorem respond_main_questions_asked (st : GroqLLM) (u g : String) :
    (st.respond u g).1.main_questions_asked
      = if is_new_main_question g && strContains g "?" then
          st.main_questions_asked + 1
        else st.main_questions_asked := by
  simp only [GroqLLM.respond, generate_response]
  split <;> split <;> (try split) <;> simp_all

theorem respond_interview_satisfied (st : GroqLLM) (u g : String) :
    (st.respond u g).1.interview_satisfied
      = (st.interview_satisfied || has_ending_phrase g) := by
  simp only [GroqLLM.respond, generate_response]
  split <;> rename_i h1 <;> split <;> rename_i h2 <;> (try split) <;> simp_all

theorem respond_satisfaction_level (st : GroqLLM) (u g : String) :
    (st.respond u g).1.satisfaction_level
      = if has_ending_phrase g then "satisfied"
        else if 3 ≤ (st.respond u g).1.main_questions_asked then
          "almost_satisfied"
        else st.satisfaction_level := by
  rw [respond_main_questions_asked]
  simp only [GroqLLM.respond, generate_response]
  split <;> rename_i h1 <;> split <;> rename_i h2 <;> (try split) <;> simp_all

theorem start_interview_fields (st : GroqLLM) (n r g : String) :
    (st.start_interview n r g).1.conversation_history = [⟨"assistant", g⟩]
      ∧ (st.start_interview n r g).1.question_count = 0
      ∧ (st.start_interview n r g).1.main_questions_asked = 1 := by
  simp [GroqLLM.start_interview, GroqLLM.reset, generate_response]

theorem advance_list_preserves_history_length (turns : List (String × String)) :
    ∀ st : GroqLLM,
      st.conversation_history.length = 2 * st.question_count + 1 →
      (advance_list st turns).conversation_history.length
        = 2 * (advance_list st turns).question_count + 1 := by
  induction turns with
  | nil => intro st h; exact h
  | cons t rest ih =>
    intro st h
    obtain ⟨u, g⟩ := t
    show (advance_list (st.respond u g).1 rest).conversation_history.length = _
    apply ih
    rw [respond_conversation_history, respond_question_count]
    simp [h]
    omega

/-! ## Claims -/

/-- C9: `begin` leaves `conversation_history` at length 1 with
`question_count` 0; every `advance` appends exactly the candidate and the
interviewer messages to the history (the state-conditioned instruction is
sent to the engine but never appended) and increments `question_count` by
one; hence after `begin` and any sequence of completed `advance` calls the
history length equals twice `question_count` plus one. -/
theorem history_length_invariant (st : GroqLLM) (n r g0 : String)
    (turns : List (String × String)) :
    ((st.start_interview n r g0).1.conversation_history.length = 1
      ∧ (st.start_interview n r g0).1.question_count = 0)
    ∧ (∀ (s : GroqLLM) (u g : String),
        (s.respond u g).1.conversation_history
          = s.conversation_history ++ [⟨"user", u⟩, ⟨"assistant", g⟩]
        ∧ (s.respond u g).1.question_count = s.question_count + 1)
    ∧ (advance_list (st.start_interview n r g0).1
          turns).conversation_history.length
        = 2 * (advance_list (st.start_interview n r g0).1 turns).question_count
            + 1 := by
  obtain ⟨h1, h2, -⟩ := start_interview_fields st n r g0
  refine ⟨⟨by rw [h1]; rfl, h2⟩,
    fun s u g => ⟨respond_conversation_history s u g,
      respond_question_count s u g⟩, ?_⟩
  apply advance_list_preserves_history_length
  rw [h1, h2]
  rfl

/-- C8: an `advance` call increments `main_questions_asked` exactly when the
generated reply both matches a `new_topic_indicators` pattern (lowercased)
and contains a question mark, and leaves it unchanged otherwise; the update
depends only on the generated text (not the candidate utterance `u`), and
the counter never decreases. -/
theorem topics_opened_update_rule (st : GroqLLM) (u g : String) :
    ((st.respond u g).1.main_questions_asked
        = if is_new_main_question g && strContains g "?" then
            st.main_questions_asked + 1
          else st.main_questions_asked)
    ∧ st.main_questions_asked ≤ (st.respond u g).1.main_questions_asked := by
  refine ⟨respond_main_questions_asked st u g, ?_⟩
  rw [respond_main_questions_asked]
  split <;> omega

/-- C1 (amended): an `advance` whose generated reply contains a closure
phrase sets `interview_satisfied` (is_complete) to true and
`satisfaction_level` to "satisfied"; `interview_satisfied` is permanent and
is unchanged by replies with no closure phrase (it equals the old value or-ed
with the closure test); but "satisfied" is not terminal: a later reply with
no closure phrase resets `satisfaction_level` to "almost_satisfied" whenever
the updated `main_questions_asked` is at least 3. -/
theorem closure_and_completion_rule (st : GroqLLM) (u g : String) :
    ((st.respond u g).1.interview_satisfied
        = (st.interview_satisfied || has_ending_phrase g))
    ∧ ((st.respond u g).1.satisfaction_level
        = if has_ending_phrase g then "satisfied"
          else if 3 ≤ (st.respond u g).1.main_questions_asked then
            "almost_satisfied"
          else st.satisfaction_level) :=
  ⟨respond_interview_satisfied st u g, respond_satisfaction_level st u g⟩

/-- C1 (counterexample): in the concrete run `demo_s0, ..., demo_s4`, the
closure phrase in turn three makes the state Satisfied and complete, yet the
following advance with a plain non-closure reply resets `satisfaction_level`
to "almost_satisfied" (with `interview_satisfied` still true): Satisfied is
not a terminal state, contrary to the claim. -/
theorem satisfied_level_not_terminal :
    demo_s3.satisfaction_level = "satisfied"
    ∧ demo_s3.interview_satisfied = true
    ∧ demo_s4.satisfaction_level = "almost_satisfied"
    ∧ demo_s4.interview_satisfied = true :=
  ⟨rfl, rfl, rfl, rfl⟩

/-- C10: the interactive loop's exit test is substring containment of an
exit word in the lowercased transcription; any transcription passing it
(even with the word buried inside a longer word) makes the loop append the
candidate entry and the fixed concluding line and stop, leaving the LLM
state untouched (the state machine is never consulted). -/
theorem exit_check_is_substring_containment (st : AgentState) (t g : String)
    (hne : ¬ t = "") (hex : is_exit_command t = true) :
    (interview_loop_body st (some t) g).1.llm = st.llm
    ∧ (interview_loop_body st (some t) g).1.transcript
        = st.transcript ++ [⟨"candidate", t⟩,
            ⟨"interviewer",
              "Thank you for your time. The interview is now concluded."⟩]
    ∧ (interview_loop_body st (some t) g).2 = false := by
  refine ⟨?_, ?_, ?_⟩ <;>
    simp [interview_loop_body, listen, speak, hne, hex]

/-- C10 witness: "I am Quite sure about that" contains no exit command as a
word, but "Quite" lowercases to "quite" which contains "quit", so the loop
force-ends on it. -/
theorem exit_check_is_substring_containment_witness :
    is_exit_command "I am Quite sure about that" = true
    ∧ (interview_loop_body demo_agent (some "I am Quite sure about that")
        "x").2 = false := by
  have h := exit_check_is_substring_containment demo_agent
    "I am Quite sure about that" "x" (by decide) (by decide)
  exact ⟨by decide, h.2.2⟩

/-- C5 (amended): the opening turn appends exactly one interviewer entry; a
normal turn appends exactly two entries (candidate then interviewer) and
advances the LLM; an empty-capture turn appends exactly one interviewer
entry — the fixed re-prompt — and leaves the LLM state and the running flag
unchanged, continuing the loop.  (The claim said an empty-capture turn
appends no entry; the re-prompt is spoken through `speak`, which records
it.) -/
theorem turn_transcript_effects (st : AgentState) (t g n r g0 : String)
    (hne : ¬ t = "") (hex : is_exit_command t = false) :
    ((run_interview_opening st n r g0).transcript
        = [⟨"interviewer", (st.llm.start_interview n r g0).2⟩])
    ∧ ((interview_loop_body st (some t) g).1.transcript
        = st.transcript ++ [⟨"candidate", t⟩,
            ⟨"interviewer", (st.llm.respond t g).2⟩]
      ∧ (interview_loop_body st (some t) g).1.llm = (st.llm.respond t g).1)
    ∧ ((interview_loop_body st none g).1.transcript
        = st.transcript
            ++ [⟨"interviewer", "I didn't catch that. Could you please repeat?"⟩]
      ∧ (interview_loop_body st none g).1.llm = st.llm
      ∧ (interview_loop_body st none g).1.running = st.running
      ∧ (interview_loop_body st none g).2 = true) := by
  refine ⟨?_, ⟨?_, ?_⟩, ?_, ?_, ?_, ?_⟩ <;>
    simp [run_interview_opening, interview_loop_body, listen, speak, hne, hex]

/-- C5 witness: a concrete non-empty, non-exit turn appends exactly two
transcript entries. -/
theorem turn_transcript_effects_witness :
    (interview_loop_body demo_agent (some "I enjoy backend work")
        "Nice. What was hard?").1.transcript.length
      = demo_agent.transcript.length + 2 := by
  have h := turn_transcript_effects demo_agent "I enjoy backend work"
    "Nice. What was hard?" "n" "r" "g" (by decide) (by decide)
  rw [h.2.1.1]
  simp

/-- C5 (counterexample): an empty-capture turn appends the re-prompt entry —
the transcript grows from one entry to two — contradicting the claim that
empty-capture turns append none. -/
theorem empty_capture_appends_reprompt :
    (interview_loop_body demo_agent none "x").1.transcript
        = demo_agent.transcript
            ++ [⟨"interviewer", "I didn't catch that. Could you please repeat?"⟩]
    ∧ (interview_loop_body demo_agent none "x").1.transcript.length = 2
    ∧ demo_agent.transcript.length = 1 :=
  ⟨rfl, rfl, rfl⟩

/-- C2 (amended): `get` and `end` on an unknown session id both signal the
404 "Session not found"; but a successful `end` leaves the registry exactly
as it was (the handler removes nothing), so a subsequent `get` on the same
id still succeeds rather than signalling `SessionNotFound`. -/
theorem registry_not_found_and_end_keeps_entry (srv : ServerState)
    (sid : String) :
    (srv.sessions.lookup sid = none →
      Api.get_interview_state srv sid = .error session_not_found
      ∧ Api.end_interview srv sid = .error session_not_found)
    ∧ (Api.end_interview srv sid).map Prod.fst
        = (Api.end_interview srv sid).map (fun _ => srv) := by
  constructor
  · intro h
    constructor <;> simp [Api.get_interview_state, Api.end_interview, h]
  · cases hl : srv.sessions.lookup sid <;>
      simp [Api.end_interview, hl, Except.map]

/-- C2 witness: on an empty registry `get` signals 404; on a registry with
session "s1", `end` succeeds and returns the registry unchanged. -/
theorem registry_not_found_and_end_keeps_entry_witness :
    Api.get_interview_state ⟨[]⟩ "missing" = .error session_not_found
    ∧ (Api.end_interview demo_server "s1").map Prod.fst = .ok demo_server := by
  refine ⟨((registry_not_found_and_end_keeps_entry ⟨[]⟩ "missing").1 rfl).1, ?_⟩
  rw [(registry_not_found_and_end_keeps_entry demo_server "s1").2]
  rfl

/-- C2 (counterexample): ending session "s1" succeeds, leaves the entry in
place, and a subsequent `get` on "s1" succeeds — it does not signal
`SessionNotFound` as the claim requires after dispose. -/
theorem get_after_end_still_succeeds :
    (Api.end_interview demo_server "s1").isOk = true
    ∧ (Api.end_interview demo_server "s1").map Prod.fst = .ok demo_server
    ∧ (Api.get_interview_state demo_server "s1").isOk = true :=
  ⟨rfl, rfl, rfl⟩

/-- C6 (amended): `set_voice` validates the selector against `AURA_VOICES`
before any network call — unknown selectors raise, known ones install the
mapped model; but the constructor used by the start handler silently falls
back to the configured default model on an unknown selector, so starting a
session with an unknown voice proceeds with the default voice instead of
failing. -/
theorem voice_validation_rule (tts : DeepgramTTS) (v : String)
    (srv : ServerState) (sid : String) (req : InterviewStartRequest)
    (g : String) :
    (AURA_VOICES.lookup v = none →
      tts.set_voice v = .error ("Unknown voice: " ++ v)
      ∧ (DeepgramTTS.construct v).model = config_DEEPGRAM_TTS_MODEL)
    ∧ (∀ m, AURA_VOICES.lookup v = some m →
        tts.set_voice v = .ok { tts with model := m })
    ∧ ((Api.start_interview srv sid req g).1.sessions.lookup sid).map
          (fun s => s.tts.model)
        = some ((AURA_VOICES.lookup req.voice).getD
            config_DEEPGRAM_TTS_MODEL) := by
  refine ⟨fun h => ⟨?_, ?_⟩, fun m h => ?_, ?_⟩
  · simp [DeepgramTTS.set_voice, h]
  · simp [DeepgramTTS.construct, h]
  · simp [DeepgramTTS.set_voice, h]
  · simp [Api.start_interview, DeepgramTTS.construct, List.lookup]

/-- C6 witness: "bogus" is unknown, so `set_voice` raises while the
constructor falls back to the default model; "luna" is known and installs
its model. -/
theorem voice_validation_rule_witness :
    DeepgramTTS.set_voice ⟨"aura-asteria-en"⟩ "bogus"
        = .error ("Unknown voice: " ++ "bogus")
    ∧ (DeepgramTTS.construct "bogus").model = config_DEEPGRAM_TTS_MODEL
    ∧ DeepgramTTS.set_voice ⟨"aura-asteria-en"⟩ "luna"
        = .ok ⟨"aura-luna-en"⟩ := by
  have h := voice_validation_rule ⟨"aura-asteria-en"⟩ "bogus" ⟨[]⟩ "s"
    ⟨"n", "r", "bogus"⟩ "g"
  have h2 := voice_validation_rule ⟨"aura-asteria-en"⟩ "luna" ⟨[]⟩ "s"
    ⟨"n", "r", "luna"⟩ "g"
  exact ⟨(h.1 rfl).1, (h.1 rfl).2, h2.2.1 "aura-luna-en" rfl⟩

/-- C6 (counterexample): starting a session with the unknown voice "bogus"
does not fail: the session is created and its TTS model is the default
"aura-asteria-en", contradicting the claim that every unknown selector makes
the operation fail. -/
theorem start_with_unknown_voice_proceeds :
    AURA_VOICES.lookup "bogus" = none
    ∧ ((bogus_voice_server.sessions.lookup "s1").map fun s => s.tts.model)
        = some "aura-asteria-en" :=
  ⟨rfl, rfl⟩

/-! ## Helper lemmas about the recorder -/

theorem record_cons_quiet (p : CaptureParams) (rms : ℚ) (rest : List ℚ)
    (b s : Nat) (hq : rms < p.silence_threshold) (hb : p.min_samples < b + 1) :
    record_with_silence_detection p (rms :: rest) ⟨b, s⟩
      = if p.required_silence_samples ≤ s + 1 then some (b + 1)
        else record_with_silence_detection p rest ⟨b + 1, s + 1⟩ := by
  simp [record_with_silence_detection, capture_callback, hq, hb]

theorem record_cons_not_quiet (p : CaptureParams) (rms : ℚ) (rest : List ℚ)
    (b s : Nat)
    (h : ¬(rms < p.silence_threshold ∧ p.min_samples < b + 1)) :
    record_with_silence_detection p (rms :: rest) ⟨b, s⟩
      = if p.required_silence_samples ≤ 0 then some (b + 1)
        else record_with_silence_detection p rest ⟨b + 1, 0⟩ := by
  simp [record_with_silence_detection, capture_callback, h]

theorem record_loud_run (p : CaptureParams) (loud : ℚ)
    (hl : ¬ loud < p.silence_threshold)
    (hr : 1 ≤ p.required_silence_samples) :
    ∀ (L b : Nat) (rest : List ℚ),
      record_with_silence_detection p (List.replicate L loud ++ rest) ⟨b, 0⟩
        = record_with_silence_detection p rest ⟨b + L, 0⟩ := by
  intro L
  induction L with
  | zero => intro b rest; simp
  | succ m ih =>
    intro b rest
    have hbm : b + 1 + m = b + (m + 1) := by omega
    rw [List.replicate_succ, List.cons_append,
      record_cons_not_quiet p loud _ b 0 (fun h => hl h.1),
      if_neg (by omega), ih (b + 1) rest, hbm]

theorem record_quiet_stop (p : CaptureParams) (quiet : ℚ)
    (hq : quiet < p.silence_threshold) :
    ∀ (n b s : Nat) (rest : List ℚ), p.min_samples ≤ b →
      s + n = p.required_silence_samples → 1 ≤ n →
      record_with_silence_detection p (List.replicate n quiet ++ rest) ⟨b, s⟩
        = some (b + n) := by
  intro n
  induction n with
  | zero => intro b s rest _ _ h; exact absurd h (by omega)
  | succ m ih =>
    intro b s rest hb hs _
    rw [List.replicate_succ, List.cons_append,
      record_cons_quiet p quiet _ b s hq (by omega)]
    rcases Nat.eq_zero_or_pos m with hm | hm
    · subst hm
      rw [if_pos (by omega)]
    · rw [if_neg (by omega), ih (b + 1) (s + 1) rest (by omega) (by omega) hm]
      congr 1
      omega

theorem record_quiet_exhaust (p : CaptureParams) (quiet : ℚ)
    (hq : quiet < p.silence_threshold) :
    ∀ (n b s : Nat), p.min_samples ≤ b →
      s + n < p.required_silence_samples →
      record_with_silence_detection p (List.replicate n quiet) ⟨b, s⟩
        = none := by
  intro n
  induction n with
  | zero => intro b s _ _; rfl
  | succ m ih =>
    intro b s hb hs
    rw [List.replicate_succ,
      record_cons_quiet p quiet _ b s hq (by omega),
      if_neg (by omega)]
    exact ih (b + 1) (s + 1) (by omega) (by omega)

theorem record_stop_exceeds_min_samples (p : CaptureParams)
    (hr : 1 ≤ p.required_silence_samples) :
    ∀ (stream : List ℚ) (st : CaptureState) (n : Nat),
      record_with_silence_detection p stream st = some n →
      p.min_samples < n := by
  intro stream
  induction stream with
  | nil =>
    intro st n h
    exact absurd h (by simp [record_with_silence_detection])
  | cons rms rest ih =>
    intro st n h
    obtain ⟨b, s⟩ := st
    by_cases hc : rms < p.silence_threshold ∧ p.min_samples < b + 1
    · rw [record_cons_quiet p rms rest b s hc.1 hc.2] at h
      split at h
      · injection h with h
        omega
      · exact ih _ n h
    · rw [record_cons_not_quiet p rms rest b s hc] at h
      split at h
      · omega
      · exact ih _ n h

theorem capture_params_16k_required_silence_samples :
    capture_params_16k.required_silence_samples = 23 := by
  have h : ⌊capture_params_16k.silence_duration
      * (capture_params_16k.sample_rate : ℚ) / 1024⌋ = 23 := by
    norm_num [capture_params_16k]
  simp only [CaptureParams.required_silence_samples, h]
  rfl

theorem capture_params_16k_min_samples :
    capture_params_16k.min_samples = 15 := by
  have h : ⌊capture_params_16k.min_duration
      * (capture_params_16k.sample_rate : ℚ) / 1024⌋ = 15 := by
    norm_num [capture_params_16k]
  simp only [CaptureParams.min_samples, h]
  rfl

theorem record_16k_stops_at_55 :
    record_with_silence_detection capture_params_16k loud_then_silent_stream
      ⟨0, 0⟩ = some 55 := by
  have hl : ¬ (1 / 10 : ℚ) < capture_params_16k.silence_threshold := by
    norm_num [capture_params_16k]
  have hq : (0 : ℚ) < capture_params_16k.silence_threshold := by
    norm_num [capture_params_16k]
  have h48 : List.replicate 48 (0 : ℚ)
      = List.replicate 23 (0 : ℚ) ++ List.replicate 25 (0 : ℚ) := by
    rw [← List.replicate_add]
  rw [loud_then_silent_stream, h48,
    record_loud_run capture_params_16k (1 / 10) hl
      (by rw [capture_params_16k_required_silence_samples]; omega) 32 0 _,
    record_quiet_stop capture_params_16k 0 hq 23 (0 + 32) 0 _
      (by rw [capture_params_16k_min_samples]; omega)
      (by rw [capture_params_16k_required_silence_samples])
      (by omega)]

theorem min_duration_le_of_min_samples_lt (p : CaptureParams)
    (hrate : 0 < p.sample_rate) (hmin : 0 ≤ p.min_duration)
    (n : Nat) (hn : p.min_samples < n) :
    p.min_duration ≤ (n : ℚ) * p.chunk_duration := by
  have hr : (0 : ℚ) < (p.sample_rate : ℚ) := by exact_mod_cast hrate
  set x : ℚ := p.min_duration * (p.sample_rate : ℚ) / 1024 with hxdef
  have hx : 0 ≤ x := by positivity
  have h0 : 0 ≤ ⌊x⌋ := Int.floor_nonneg.mpr hx
  have h3 : p.min_samples = (⌊x⌋).toNat := rfl
  have h2 : (⌊x⌋ : ℤ) < (n : ℤ) := by
    rw [← Int.toNat_of_nonneg h0]
    exact_mod_cast h3 ▸ hn
  have h4 : ((⌊x⌋ : ℚ) + 1) ≤ (n : ℚ) := by exact_mod_cast h2
  have h1 : x < (n : ℚ) := lt_of_lt_of_le (Int.lt_floor_add_one x) h4
  have hc : (0 : ℚ) < p.chunk_duration := by
    rw [CaptureParams.chunk_duration]
    positivity
  have key : p.min_duration = x * p.chunk_duration := by
    rw [hxdef, CaptureParams.chunk_duration]
    field_simp
  rw [key]
  exact mul_le_mul_of_nonneg_right (le_of_lt h1) (le_of_lt hc)

/-- C3 (counterexample): with sample rate 16000 and
`required_silence_duration` = 1.5 s, the stop threshold is
⌊1.5·16000/1024⌋ = 23 chunks, so the recorder stops at chunk 55 of
`loud_then_silent_stream` — after 55 − 32 = 23 consecutive quiet chunks
whose total duration 23·(1024/16000) = 1.472 s is strictly shorter than
`required_silence_duration`, contradicting the claim that capture never
stops on consecutive silence of total duration strictly below it. -/
theorem silence_stop_below_required_duration :
    record_with_silence_detection capture_params_16k loud_then_silent_stream
        ⟨0, 0⟩ = some 55
    ∧ ((55 : ℚ) - 32) * capture_params_16k.chunk_duration
        < capture_params_16k.silence_duration := by
  refine ⟨record_16k_stops_at_55, ?_⟩
  norm_num [capture_params_16k, CaptureParams.chunk_duration]

/-- C3 (amended): the silence rule stops capture exactly when the count of
consecutive quiet chunks reaches `required_silence_samples` =
⌊required_silence_duration·sample_rate/1024⌋, which may undershoot
`required_silence_duration` by up to one chunk duration: after a loud prefix
of L ≥ min_samples chunks, exactly `required_silence_samples` quiet chunks
stop the capture at chunk L + required_silence_samples while one fewer does
not stop it at all; in the spec's scenario (loud for 2.048 s, then silent,
rate 16000, threshold 0.01, required 1.5 s) capture stops at chunk 55 =
3.52 s, within one chunk duration of 3.5 s. -/
theorem silence_stop_at_floor_threshold :
    (∀ (p : CaptureParams) (loud quiet : ℚ) (L : Nat) (rest : List ℚ),
      ¬ loud < p.silence_threshold → quiet < p.silence_threshold →
      p.min_samples ≤ L → 1 ≤ p.required_silence_samples →
      record_with_silence_detection p
          (List.replicate L loud
            ++ (List.replicate p.required_silence_samples quiet ++ rest))
          ⟨0, 0⟩
        = some (L + p.required_silence_samples)
      ∧ record_with_silence_detection p
          (List.replicate L loud
            ++ List.replicate (p.required_silence_samples - 1) quiet)
          ⟨0, 0⟩
        = none)
    ∧ (record_with_silence_detection capture_params_16k
          loud_then_silent_stream ⟨0, 0⟩ = some 55
      ∧ (55 : ℚ) * capture_params_16k.chunk_duration - 7 / 2
          ≤ capture_params_16k.chunk_duration
      ∧ 7 / 2 - (55 : ℚ) * capture_params_16k.chunk_duration
          ≤ capture_params_16k.chunk_duration) := by
  refine ⟨fun p loud quiet L rest hl hq hL hr => ⟨?_, ?_⟩,
    record_16k_stops_at_55, ?_, ?_⟩
  · rw [record_loud_run p loud hl hr L 0 _,
      record_quiet_stop p quiet hq p.required_silence_samples (0 + L) 0 rest
        (by omega) (by omega) hr]
    congr 1
    omega
  · rw [record_loud_run p loud hl hr L 0 _,
      record_quiet_exhaust p quiet hq (p.required_silence_samples - 1)
        (0 + L) 0 (by omega) (by omega)]
  · norm_num [capture_params_16k, CaptureParams.chunk_duration]
  · norm_num [capture_params_16k, CaptureParams.chunk_duration]

/-- C3 witness: the general characterization instantiated at the concrete
parameters (rate 16000, required 1.5 s → 23 chunks), a loud prefix of 32
chunks and quiet of RMS 0. -/
theorem silence_stop_at_floor_threshold_witness :
    record_with_silence_detection capture_params_16k
        (List.replicate 32 ((1 : ℚ) / 10)
          ++ (List.replicate capture_params_16k.required_silence_samples
                (0 : ℚ) ++ []))
        ⟨0, 0⟩
      = some (32 + capture_params_16k.required_silence_samples)
    ∧ record_with_silence_detection capture_params_16k
        (List.replicate 32 ((1 : ℚ) / 10)
          ++ List.replicate
              (capture_params_16k.required_silence_samples - 1) (0 : ℚ))
        ⟨0, 0⟩
      = none := by
  exact silence_stop_at_floor_threshold.1 capture_params_16k (1 / 10) 0 32 []
    (by norm_num [capture_params_16k]) (by norm_num [capture_params_16k])
    (by rw [capture_params_16k_min_samples]; omega)
    (by rw [capture_params_16k_required_silence_samples]; omega)

/-- C4 (counterexample): with sample rate 1024 (one chunk per second) and
`min_duration` = 1.0 s, the first chunk of a silent stream has RMS 0 below
the threshold and its buffered duration is exactly `min_duration`, so the
claim requires the quiet counter to be incremented; the code resets it to 0
because it demands strictly more than min_samples buffered chunks. -/
theorem quiet_reset_at_min_duration_boundary :
    ((0 : ℚ) < boundary_params.silence_threshold)
    ∧ boundary_params.min_duration
        ≤ ((0 : ℚ) + 1) * boundary_params.chunk_duration
    ∧ (capture_callback boundary_params ⟨0, 0⟩ 0).1.silence_samples = 0 := by
  have h1 : boundary_params.min_samples = 1 := by
    have h : ⌊boundary_params.min_duration
        * (boundary_params.sample_rate : ℚ) / 1024⌋ = 1 := by
      norm_num [boundary_params]
    simp only [CaptureParams.min_samples, h]
    rfl
  refine ⟨by norm_num [boundary_params],
    by norm_num [boundary_params, CaptureParams.chunk_duration], ?_⟩
  simp [capture_callback, h1]

/-- C4 (amended): a chunk increments `silence_samples` iff its RMS is below
`silence_threshold` and the buffered duration strictly exceeds
min_samples·chunk_duration where min_samples = ⌊min_duration·rate/1024⌋
(a strict threshold that can coincide with `min_duration` itself), and in
every other case the counter resets to zero; consequently, whenever
`required_silence_samples` is at least one, the silence rule never stops
capture before `min_duration` of audio has been buffered. -/
theorem quiet_counter_rule_and_min_duration (p : CaptureParams)
    (st : CaptureState) (rms : ℚ) (stream : List ℚ) (n : Nat)
    (hrate : 0 < p.sample_rate) (hmin : 0 ≤ p.min_duration)
    (hreq : 1 ≤ p.required_silence_samples) :
    ((capture_callback p st rms).1.silence_samples = st.silence_samples + 1
      ↔ rms < p.silence_threshold
        ∧ (p.min_samples : ℚ) * p.chunk_duration
            < ((st.chunks : ℚ) + 1) * p.chunk_duration)
    ∧ ((capture_callback p st rms).1.silence_samples = st.silence_samples + 1
        ∨ (capture_callback p st rms).1.silence_samples = 0)
    ∧ (record_with_silence_detection p stream ⟨0, 0⟩ = some n →
        p.min_duration ≤ (n : ℚ) * p.chunk_duration) := by
  have hc : (0 : ℚ) < p.chunk_duration := by
    rw [CaptureParams.chunk_duration]
    have : (0 : ℚ) < (p.sample_rate : ℚ) := by exact_mod_cast hrate
    positivity
  have hcast : ((p.min_samples : ℚ) * p.chunk_duration
      < ((st.chunks : ℚ) + 1) * p.chunk_duration)
      ↔ p.min_samples < st.chunks + 1 := by
    rw [mul_lt_mul_right hc]
    constructor
    · intro h
      exact_mod_cast h
    · intro h
      exact_mod_cast h
  refine ⟨?_, ?_, ?_⟩
  · rw [hcast]
    by_cases hcond : rms < p.silence_threshold ∧ p.min_samples < st.chunks + 1
    · simp [capture_callback, hcond]
    · simp [capture_callback, hcond]
  · by_cases hcond : rms < p.silence_threshold ∧ p.min_samples < st.chunks + 1
    · simp [capture_callback, hcond]
    · simp [capture_callback, hcond]
  · intro h
    exact min_duration_le_of_min_samples_lt p hrate hmin n
      (record_stop_exceeds_min_samples p hreq stream ⟨0, 0⟩ n h)

/-- C4 witness: the rule at concrete inputs — a quiet chunk past the
min-duration guard increments the counter to 4, and the silence-rule stop of
the concrete 16 kHz run at chunk 55 buffers at least `min_duration` = 1 s of
audio. -/
theorem quiet_counter_rule_and_min_duration_witness :
    (capture_callback capture_params_16k ⟨20, 3⟩ 0).1.silence_samples = 4
    ∧ capture_params_16k.min_duration
        ≤ ((55 : Nat) : ℚ) * capture_params_16k.chunk_duration := by
  have h := quiet_counter_rule_and_min_duration capture_params_16k ⟨20, 3⟩ 0
    loud_then_silent_stream 55 (by norm_num [capture_params_16k])
    (by norm_num [capture_params_16k])
    (by rw [capture_params_16k_required_silence_samples]; omega)
  refine ⟨h.1.mpr ⟨by norm_num [capture_params_16k], ?_⟩,
    h.2.2 record_16k_stops_at_55⟩
  rw [capture_params_16k_min_samples]
  norm_num [capture_params_16k, CaptureParams.chunk_duration]

end Interview

